import Mathlib

/-!
Verification of the ddns-updater repository core against its specification.

Shallow embedding of:
- the Cloudflare DNS provider adapter (src/internal/server/api.go): settings
  validation, client construction, record lookup/create/update;
- the Record JSON status projection (src/internal/records/json.go);
- the public-IP information provider registry (src/internal/records/json.go,
  package info).

Machine integers (uint32 TTL) are modelled as Nat (no overflow is possible in
the validated range checks). Go errors are modelled as an inductive type that
keeps the sentinel identity (for errors.Is) and the rendered message.
Vendor HTTP calls are modelled by an environment of responses plus a log of
the mutating calls the code issues.
-/

set_option maxHeartbeats 1000000

namespace Ddns

/-- Model of Go net/netip.Addr: a validity flag (the zero Addr is invalid),
the IP family (Is6) and the textual form returned by String() when valid. -/
structure Addr where
  valid : Bool
  is6 : Bool
  text : String
deriving DecidableEq, Repr

/-- Go netip.Addr.String(): returns "invalid IP" on the zero (invalid) Addr,
the textual address otherwise. -/
def Addr.string (a : Addr) : String :=
  if a.valid then a.text else "invalid IP"

/-- The zero value of netip.Addr (returned by `netip.Addr{}`). -/
def zeroAddr : Addr := { valid := false, is6 := false, text := "" }

namespace Cloudflare

/-- DNS record types used by the adapter (cfdns.ARecordTypeA / AAAARecordTypeAAAA). -/
inductive DnsRecordType
  | A
  | AAAA
deriving DecidableEq, Repr

/-- recordTypeForIP from api.go: A unless ip.Is6(), then AAAA. -/
def recordTypeForIP (ip : Addr) : DnsRecordType :=
  if ip.is6 then .AAAA else .A

/-- The Provider struct from api.go. ipVersion and ipv6Suffix are opaque
pass-through fields (strings) since no claim inspects them. -/
structure Provider where
  domain : String
  owner : String
  ipVersion : String
  ipv6Suffix : String
  key : String
  token : String
  email : String
  userServiceKey : String
  zoneIdentifier : String
  proxied : Bool
  ttl : Nat
deriving DecidableEq, Repr

def isAlphaNum (c : Char) : Bool := c.isAlpha || c.isDigit

/-- Models the Go regexp keyRegex `^[a-zA-Z0-9]+$`: the whole string is one
or more ASCII alphanumeric characters. -/
def keyRegexMatch (s : String) : Bool :=
  !s.data.isEmpty && s.data.all isAlphaNum

/-- Models the Go regexp userServiceKeyRegex `^v1\.0.+$`: the literal "v1.0"
followed by at least one character; `.` does not match a newline in RE2. -/
def userServiceKeyRegexMatch (s : String) : Bool :=
  match s.data with
  | 'v' :: '1' :: '.' :: '0' :: rest => !rest.isEmpty && rest.all (fun c => c != '\n')
  | _ => false

def emailLocalChar (c : Char) : Bool :=
  isAlphaNum c || c == '-' || c == '_' || c == '.' || c == '+'

def emailDomainChar (c : Char) : Bool :=
  isAlphaNum c || c == '-' || c == '_' || c == '.'

/-- The `[a-zA-Z]{2,10}` tail of the email regexp matches at the head of l:
some run of 2 to 10 ASCII letters starts there. -/
def emailTldAt (l : List Char) : Bool :=
  (List.range 9).any fun k =>
    decide (k + 2 ≤ l.length) && (l.take (k + 2)).all Char.isAlpha

/-- The core email pattern `[a-zA-Z0-9-_.+]+@[a-zA-Z0-9-_.]+\.[a-zA-Z]{2,10}`
matches starting exactly at the head of l (trailing characters allowed). -/
def emailCoreAt (l : List Char) : Bool :=
  (List.range (l.length + 1)).any fun n1 =>
    decide (1 ≤ n1) && (l.take n1).all emailLocalChar &&
    (match l.drop n1 with
     | '@' :: rest =>
       (List.range (rest.length + 1)).any fun n2 =>
         decide (1 ≤ n2) && (rest.take n2).all emailDomainChar &&
         (match rest.drop n2 with
          | '.' :: rest2 => emailTldAt rest2
          | _ => false)
     | _ => false)

/-- Models Go regexEmail MatchString: the (unanchored) email pattern matches
somewhere inside s. -/
def emailRegexMatch (s : String) : Bool :=
  (List.range (s.data.length + 1)).any fun i => emailCoreAt (s.data.drop i)

/-- Modelled from the spec: sentinel texts of the internal provider errors
package (not under src). Only their identity matters to the claims. -/
def errDomainNotValid : String := "domain is not valid"

def errKeyNotValid : String := "key is not valid"

def errEmailNotValid : String := "email is not valid"

def errUserServiceKeyNotValid : String := "user service key is not valid"

def errZoneIdentifierNotSet : String := "zone identifier is not set"

def errTTLNotSet : String := "TTL is not set"

/-- Modelled from the spec: utils.CheckDomain is not under src; section 7 of
the spec lists "invalid domain" as a construction-time configuration error.
Minimal model: the empty domain is invalid, any other domain is accepted. -/
def CheckDomain (domain : String) : Except String Unit :=
  if domain = "" then .error "domain is empty" else .ok ()

/-- The trailing zone/ttl switch of validateSettings in api.go. -/
def checkZoneAndTTL (zoneIdentifier : String) (ttl : Nat) : Except String Unit :=
  if zoneIdentifier = "" then .error errZoneIdentifierNotSet
  else if ttl = 0 then .error errTTLNotSet
  else .ok ()

/-- validateSettings from api.go. The Go switch guard
`case email != "", key != ""` fires when email or key is non-empty; the
default case (API token only) performs no credential check at all. -/
def validateSettings (domain email key userServiceKey zoneIdentifier : String)
    (ttl : Nat) : Except String Unit :=
  match CheckDomain domain with
  | .error e => .error (errDomainNotValid ++ ": " ++ e)
  | .ok _ =>
    if email ≠ "" ∨ key ≠ "" then
      if !keyRegexMatch key then
        .error (errKeyNotValid ++ ": key " ++ key ++ " does not match regex")
      else if !emailRegexMatch email then
        .error (errEmailNotValid ++ ": email " ++ email ++ " does not match regex")
      else checkZoneAndTTL zoneIdentifier ttl
    else if userServiceKey ≠ "" then
      if !userServiceKeyRegexMatch userServiceKey then
        .error (errUserServiceKeyNotValid ++ ": does not match regex")
      else checkZoneAndTTL zoneIdentifier ttl
    else
      checkZoneAndTTL zoneIdentifier ttl

/-- The decoded extraSettings JSON object of New in api.go. -/
structure Settings where
  key : String
  token : String
  email : String
  userServiceKey : String
  zoneIdentifier : String
  proxied : Bool
  ttl : Nat
deriving DecidableEq, Repr

/-- New from api.go, after JSON decoding: validates the settings and builds
the Provider, or fails with a construction-time error. -/
def New (s : Settings) (domain owner ipVersion ipv6Suffix : String) :
    Except String Provider :=
  match validateSettings domain s.email s.key s.userServiceKey s.zoneIdentifier s.ttl with
  | .error e => .error ("validating provider specific settings: " ++ e)
  | .ok _ =>
    .ok { domain := domain, owner := owner, ipVersion := ipVersion,
          ipv6Suffix := ipv6Suffix, key := s.key, token := s.token,
          email := s.email, userServiceKey := s.userServiceKey,
          zoneIdentifier := s.zoneIdentifier, proxied := s.proxied,
          ttl := s.ttl }

/-- The authentication option the Cloudflare client is built with. -/
inductive ClientAuth
  | apiToken (token : String)
  | apiKeyEmail (key email : String)
  | apiServiceKey (key : String)
deriving DecidableEq, Repr

/-- createCloudflareClient from api.go: picks token, then email+key, then
user service key; errors when all are empty. -/
def createCloudflareClient (p : Provider) : Except String ClientAuth :=
  if p.token ≠ "" then .ok (.apiToken p.token)
  else if p.email ≠ "" ∧ p.key ≠ "" then .ok (.apiKeyEmail p.key p.email)
  else if p.userServiceKey ≠ "" then .ok (.apiServiceKey p.userServiceKey)
  else .error "no authentication method available"

/-- Modelled from the spec: utils.BuildDomainName is not under src; the full
record name joins owner and domain, "@" meaning the apex domain. -/
def BuildDomainName (p : Provider) : String :=
  if p.owner = "@" then p.domain else p.owner ++ "." ++ p.domain

/-- Go error model: keeps sentinel identity (for errors.Is) and message
structure. wrap models fmt.Errorf("ctx: %w", e). -/
inductive GoErr
  | noResult
  | resultsCount (count : Nat)
  | vendor (msg : String)
  | wrap (ctx : String) (inner : GoErr)
deriving DecidableEq, Repr

/-- errors.Is(e, ErrReceivedNoResult): true on the sentinel and through
wrapping. -/
def GoErr.isNoResult : GoErr → Bool
  | .noResult => true
  | .wrap _ inner => inner.isNoResult
  | _ => false

/-- Modelled from the spec: base texts of ErrReceivedNoResult and
ErrResultsCountReceived live in the errors package, not under src. -/
def errReceivedNoResultText : String := "received no result"

def errResultsCountReceivedText : String := "results count received"

/-- The rendered message of a GoErr, following the fmt.Errorf formats in
api.go ("%w: %d instead of 1", "ctx: %w"). -/
def GoErr.message : GoErr → String
  | .noResult => errReceivedNoResultText
  | .resultsCount n => errResultsCountReceivedText ++ ": " ++ toString n ++ " instead of 1"
  | .vendor msg => msg
  | .wrap ctx inner => ctx ++ ": " ++ inner.message

/-- One DNS record as returned by the vendor list call (the fields api.go
reads: ID and Content). -/
structure DnsRecord where
  id : String
  content : String
deriving DecidableEq, Repr

/-- Parameters of the vendor list call issued by getRecordID. -/
structure ListParams where
  zoneID : String
  recType : DnsRecordType
  nameExact : String
deriving DecidableEq, Repr

/-- Parameters of the vendor record-creation call issued by createRecord. -/
structure CreateParams where
  zoneID : String
  name : String
  recType : DnsRecordType
  content : String
  ttl : Nat
  proxied : Bool
deriving DecidableEq, Repr

/-- Parameters of the vendor record-update call issued by Update. -/
structure UpdateParams where
  recordID : String
  zoneID : String
  name : String
  recType : DnsRecordType
  content : String
  ttl : Nat
  proxied : Bool
deriving DecidableEq, Repr

/-- The vendor environment: the responses the Cloudflare API returns to each
call the adapter can issue. Errors are transport-level message strings. -/
structure VendorEnv where
  listResult : ListParams → Except String (List DnsRecord)
  createResult : CreateParams → Except String String
  updateResult : UpdateParams → Except String Unit

/-- The log of mutating vendor calls issued during one Update. -/
structure CallLog where
  creates : List CreateParams
  updates : List UpdateParams
deriving DecidableEq, Repr

/-- The empty call log. -/
def CallLog.empty : CallLog := { creates := [], updates := [] }

/-- The list-call parameters getRecordID sends (zone, type from the IP
family, exact record name). -/
def listParamsFor (p : Provider) (newIP : Addr) : ListParams :=
  { zoneID := p.zoneIdentifier, recType := recordTypeForIP newIP,
    nameExact := BuildDomainName p }

/-- getRecordID from api.go: one list call, then a switch on the result
count; returns (record id, upToDate). -/
def getRecordID (env : VendorEnv) (p : Provider) (newIP : Addr) :
    Except GoErr (String × Bool) :=
  match env.listResult (listParamsFor p newIP) with
  | .error msg => .error (.wrap "error listing DNS records" (.vendor msg))
  | .ok result =>
    match result with
    | [] => .error .noResult
    | r :: rest =>
      if 0 < rest.length then .error (.resultsCount (r :: rest).length)
      else if r.content = newIP.string then .ok (r.id, true)
      else .ok (r.id, false)

/-- The creation-call parameters createRecord sends. -/
def createParamsFor (p : Provider) (ip : Addr) : CreateParams :=
  { zoneID := p.zoneIdentifier, name := BuildDomainName p,
    recType := recordTypeForIP ip, content := ip.string,
    ttl := p.ttl, proxied := p.proxied }

/-- The update-call parameters the tail of Update sends. -/
def updateParamsFor (p : Provider) (ip : Addr) (recordID : String) : UpdateParams :=
  { recordID := recordID, zoneID := p.zoneIdentifier, name := BuildDomainName p,
    recType := recordTypeForIP ip, content := ip.string,
    ttl := p.ttl, proxied := p.proxied }

/-- The tail of Update in api.go: the cfClient.DNS.Records.Update call
reached after the switch (both from the found-and-different path and the
fall-through after a successful creation). -/
def runRecordUpdate (env : VendorEnv) (p : Provider) (ip : Addr)
    (recordID : String) (log : CallLog) : Except GoErr Addr × CallLog :=
  match env.updateResult (updateParamsFor p ip recordID) with
  | .error msg =>
    (.error (.wrap "updating DNS record" (.vendor msg)),
     { log with updates := log.updates ++ [updateParamsFor p ip recordID] })
  | .ok _ =>
    (.ok ip, { log with updates := log.updates ++ [updateParamsFor p ip recordID] })

/-- Update from api.go. Returns the Go result (new IP or error) together
with the log of mutating vendor calls issued. Mirrors the Go switch:
ErrReceivedNoResult triggers a creation and then falls through to the
record-update call; any other lookup error returns; upToDate returns the
requested IP with no mutating call. -/
def Provider.Update (env : VendorEnv) (p : Provider) (ip : Addr) :
    Except GoErr Addr × CallLog :=
  match createCloudflareClient p with
  | .error msg =>
    (.error (.wrap "failed to create cloudflare client" (.vendor msg)), CallLog.empty)
  | .ok _client =>
    match getRecordID env p ip with
    | .error e =>
      if e.isNoResult then
        match env.createResult (createParamsFor p ip) with
        | .error msg =>
          (.error (.wrap "creating record" (.vendor msg)),
           { creates := [createParamsFor p ip], updates := [] })
        | .ok recordID =>
          runRecordUpdate env p ip recordID
            { creates := [createParamsFor p ip], updates := [] }
      else
        (.error (.wrap "getting record id" e), CallLog.empty)
    | .ok (recordID, upToDate) =>
      if upToDate then (.ok ip, CallLog.empty)
      else runRecordUpdate env p ip recordID CallLog.empty

end Cloudflare

namespace Records

/-- Go time.Duration in nanoseconds (int64; Int here, no overflow in the
modelled ranges). -/
abbrev Duration := Int

def nsPerSecond : Duration := 1000000000

/-- Go time.Duration.Round(time.Second): rounds to the nearest multiple of a
second, rounding half away from zero; Go's % is truncated division (Int.tmod).
The int64 overflow clamps of the Go source cannot trigger on Int. -/
def roundToSecond (d : Duration) : Duration :=
  let r := Int.tmod d nsPerSecond
  if d < 0 then
    let r2 := -r
    if r2 + r2 < nsPerSecond then d + r2 else d - nsPerSecond + r2
  else
    if r + r < nsPerSecond then d - r else d + nsPerSecond - r

/-- Go time.Duration.String() restricted to whole-second durations (the only
values the code renders: it always rounds to the second first): h/m/s units,
leading "-" for negative values, "0s" for zero. -/
def durationString (d : Duration) : String :=
  let sign := if d < 0 then "-" else ""
  let s := d.natAbs / 1000000000
  if s < 60 then sign ++ toString s ++ "s"
  else if s < 3600 then sign ++ toString (s / 60) ++ "m" ++ toString (s % 60) ++ "s"
  else sign ++ toString (s / 3600) ++ "h" ++ toString ((s % 3600) / 60) ++ "m"
       ++ toString (s % 60) ++ "s"

/-- Modelled from the spec: the History Store is repository code not under
src (spec section 3): currentIP is "the last address the Provider Adapter
confirmed as live, or absent if never set", previousIPs the ordered prior
addresses, lastSuccessTime the last transition into Success/UpToDate
(absent if never). Times are absolute nanosecond instants. -/
structure History where
  currentIP : Option Addr
  previousIPs : List Addr
  lastSuccessTime : Option Int
deriving DecidableEq, Repr

/-- Modelled from the spec: History.GetCurrentIP returns a Go netip.Addr, so
an absent current IP is the zero (invalid) Addr. -/
def History.GetCurrentIP (h : History) : Addr :=
  match h.currentIP with
  | some a => a
  | none => zeroAddr

def History.GetPreviousIPs (h : History) : List Addr :=
  h.previousIPs

/-- Modelled from the spec (section 4.3): durationSinceSuccess is
now - lastSuccessTime formatted as a coarse human duration, "never" when no
success has happened yet. -/
def History.GetDurationSinceSuccess (h : History) (now : Int) : String :=
  match h.lastSuccessTime with
  | none => "never"
  | some t => durationString (now - t)

/-- Modelled from the spec: constants.UPTODATE from the internal constants
package (not under src); statuses are strings, the Unset status is the empty
string (json.go compares r.Status == ""). -/
def UPTODATE : String := "up to date"

/-- The provider fields the JSON projection reads from the Record's bound
provider interface: Domain(), Owner(), String(), IPVersion().String(). -/
structure ProviderInfo where
  domain : String
  owner : String
  describe : String
  ipVersionText : String
deriving DecidableEq, Repr

/-- The Record struct fields read by JSON in json.go. Time is the last
attempt instant in nanoseconds. -/
structure Record where
  Provider : ProviderInfo
  History : History
  Status : String
  Message : String
  Time : Int
deriving DecidableEq, Repr

/-- models.Stat from json.go: the JSON projection row. -/
structure Stat where
  Domain : String
  Owner : String
  ProviderDescr : String
  IPVersion : String
  Status : String
  CurrentIP : String
  PreviousIPs : List Addr
deriving DecidableEq, Repr

/-- The effective message of the projection: replaced by the
"no IP change for ..." text when the status is UPTODATE. -/
def effectiveMessage (r : Record) (now : Int) : String :=
  if r.Status = UPTODATE then
    "no IP change for " ++ r.History.GetDurationSinceSuccess now
  else r.Message

/-- Record.JSON from json.go. time.Since(r.Time) is modelled as now - r.Time
(the projection is called with the current instant). The Go code builds the
row, wraps a non-empty message in parentheses, and composes the status with
fmt.Sprintf("%s %s, %s", status, message, age+" ago"), or sets the "N/A"
sentinel when the status is the empty (unset) value. -/
def Record.JSON (r : Record) (now : Int) : Stat :=
  let message := effectiveMessage r now
  let message2 := if message ≠ "" then "(" ++ message ++ ")" else message
  { Domain := r.Provider.domain
    Owner := r.Provider.owner
    ProviderDescr := r.Provider.describe
    IPVersion := r.Provider.ipVersionText
    CurrentIP := (r.History.GetCurrentIP).string
    PreviousIPs := r.History.GetPreviousIPs
    Status :=
      if r.Status = "" then "N/A"
      else r.Status ++ " " ++ message2 ++ ", "
           ++ durationString (roundToSecond (now - r.Time)) ++ " ago" }

end Records

namespace Info

/-- The Provider string constants of package info in json.go. -/
def Ipinfo : String := "ipinfo"

def IP2Location : String := "ip2location"

/-- ListProviders from json.go. -/
def ListProviders : List String := [Ipinfo, IP2Location]

def errUnknownProvider : String := "unknown public IP information provider"

/-- The loop body of ValidateProvider: compare against each possible
provider in order, error after the list is exhausted. -/
def validateLoop (p : String) : List String → Except String Unit
  | [] => .error (errUnknownProvider ++ ": " ++ p)
  | q :: rest => if p = q then .ok () else validateLoop p rest

/-- ValidateProvider from json.go. -/
def ValidateProvider (p : String) : Except String Unit :=
  validateLoop p ListProviders

/-- The concrete providers newProvider can build (newIpinfo / newIP2Location
are not under src; only their selection matters to the claims). -/
inductive ProviderImpl
  | ipinfo
  | ip2location
deriving DecidableEq, Repr

/-- newProvider from json.go; the default branch panics in Go, modelled as
the error case carrying the panic message. -/
def newProvider (providerName : String) : Except String ProviderImpl :=
  if providerName = Ipinfo then .ok .ipinfo
  else if providerName = IP2Location then .ok .ip2location
  else .error ("provider " ++ providerName ++ " not implemented")

end Info

namespace Orchestrator

/-- Modelled from the spec: the Update Orchestrator is repository code not
under src. Spec section 5: per-Record mutual exclusion keyed by
domain+owner+ipVersion — a trigger arriving while that Record is Updating
either waits or is rejected and never starts a second concurrent vendor
call. The state tracks the keys of the in-flight vendor calls. -/
structure State where
  inFlight : List String
deriving DecidableEq, Repr

/-- Modelled from the spec: the events of the orchestration discipline. A
vendor call for a key starts only when no call for that key is in flight; a
trigger for a busy key waits or is rejected (no state change); a finished
call leaves the in-flight set. -/
inductive Step : State → State → Prop
  | startUpdate (k : String) (s : State) (h : k ∉ s.inFlight) :
      Step s { inFlight := k :: s.inFlight }
  | waitOrReject (k : String) (s : State) (h : k ∈ s.inFlight) :
      Step s s
  | finishUpdate (k : String) (s : State) :
      Step s { inFlight := s.inFlight.erase k }

/-- The initial orchestrator state: no call in flight. -/
def init : State := { inFlight := [] }

/-- States reachable from the initial state by any interleaving of events. -/
def Reachable (s : State) : Prop :=
  Relation.ReflTransGen Step init s

end Orchestrator

namespace Fixtures

open Cloudflare Records

/-- A concrete IPv4 address. -/
def ip4 : Addr := { valid := true, is6 := false, text := "10.0.0.1" }

/-- A concrete token-authenticated provider configuration. -/
def settingsTok : Settings :=
  { key := "", token := "tok1", email := "", userServiceKey := "",
    zoneIdentifier := "zone1", proxied := false, ttl := 1 }

/-- The provider New builds from settingsTok. -/
def provTok : Provider :=
  { domain := "example.com", owner := "@", ipVersion := "ipv4", ipv6Suffix := "",
    key := "", token := "tok1", email := "", userServiceKey := "",
    zoneIdentifier := "zone1", proxied := false, ttl := 1 }

/-- A configuration with every credential field empty (the unchecked token
default case of validateSettings). -/
def settingsNoCreds : Settings :=
  { key := "", token := "", email := "", userServiceKey := "",
    zoneIdentifier := "zone1", proxied := false, ttl := 1 }

/-- The provider New builds from settingsNoCreds. -/
def provNoAuth : Provider :=
  { domain := "example.com", owner := "@", ipVersion := "ipv4", ipv6Suffix := "",
    key := "", token := "", email := "", userServiceKey := "",
    zoneIdentifier := "zone1", proxied := false, ttl := 1 }

/-- A configuration with an empty zone identifier. -/
def settingsNoZone : Settings :=
  { key := "", token := "tok1", email := "", userServiceKey := "",
    zoneIdentifier := "", proxied := false, ttl := 1 }

/-- Vendor environment whose lookup finds one record already holding ip4. -/
def envUpToDate : VendorEnv :=
  { listResult := fun _ => .ok [{ id := "rid1", content := "10.0.0.1" }],
    createResult := fun _ => .ok "newid",
    updateResult := fun _ => .ok () }

/-- Vendor environment whose lookup finds no record. -/
def envEmpty : VendorEnv :=
  { listResult := fun _ => .ok [],
    createResult := fun _ => .ok "newid",
    updateResult := fun _ => .ok () }

/-- Vendor environment whose lookup finds two matching records. -/
def envTwo : VendorEnv :=
  { listResult := fun _ =>
      .ok [{ id := "r1", content := "1.1.1.1" }, { id := "r2", content := "2.2.2.2" }],
    createResult := fun _ => .ok "newid",
    updateResult := fun _ => .ok () }

/-- A history with no confirmed IP yet. -/
def histNever : History :=
  { currentIP := none, previousIPs := [], lastSuccessTime := none }

/-- The provider fields of a concrete Record. -/
def provInfo : ProviderInfo :=
  { domain := "example.com", owner := "@", describe := "cloudflare", ipVersionText := "ipv4" }

/-- A Record that failed with an empty message and has no history. -/
def recFail : Record :=
  { Provider := provInfo, History := histNever, Status := "failure", Message := "", Time := 0 }

/-- A Record that failed with a non-empty message. -/
def recFailMsg : Record :=
  { Provider := provInfo, History := histNever, Status := "failure",
    Message := "boom", Time := 0 }

/-- A Record whose status was never set. -/
def recUnset : Record :=
  { Provider := provInfo, History := histNever, Status := "", Message := "", Time := 0 }

/-- A Record whose history holds a confirmed current IP. -/
def recCurrent : Record :=
  { Provider := provInfo,
    History := { currentIP := some ip4, previousIPs := [], lastSuccessTime := some 0 },
    Status := "success", Message := "", Time := 0 }

end Fixtures

section Theorems

open Cloudflare Records

/-- Helper: the invariant of the orchestration discipline — the in-flight
key list never holds duplicates in any reachable state. -/
theorem Orchestrator.reachable_nodup (s : Orchestrator.State)
    (h : Orchestrator.Reachable s) : s.inFlight.Nodup := by
  induction h with
  | refl => exact List.nodup_nil
  | tail _ hstep ih =>
    cases hstep with
    | startUpdate k t hk => exact List.nodup_cons.mpr ⟨hk, ih⟩
    | waitOrReject k t hk => exact ih
    | finishUpdate k t => exact ih.erase k

/-- Helper: a key matching keyRegex is non-empty. -/
theorem keyRegexMatch_ne_empty {s : String} (h : keyRegexMatch s = true) :
    s ≠ "" := by
  intro he
  rw [he] at h
  exact absurd h (by decide)

/-- Helper: an email matching regexEmail is non-empty. -/
theorem emailRegexMatch_ne_empty {s : String} (h : emailRegexMatch s = true) :
    s ≠ "" := by
  intro he
  rw [he] at h
  exact absurd h (by decide)

/-- Helper: what acceptance by validateSettings implies — which credential
shape passed the switch, and that zone and TTL are set. -/
theorem validateSettings_ok_inv {domain email key usk zone : String} {ttl : Nat}
    (h : validateSettings domain email key usk zone ttl = .ok ()) :
    (((email ≠ "" ∨ key ≠ "") ∧ keyRegexMatch key = true ∧ emailRegexMatch email = true) ∨
     (email = "" ∧ key = "" ∧ usk ≠ "") ∨
     (email = "" ∧ key = "" ∧ usk = "")) ∧
    zone ≠ "" ∧ ttl ≠ 0 := by
  unfold validateSettings at h
  cases hcd : CheckDomain domain with
  | error e => rw [hcd] at h; exact absurd h (by simp)
  | ok u =>
    rw [hcd] at h
    have hzt : checkZoneAndTTL zone ttl = .ok () → zone ≠ "" ∧ ttl ≠ 0 := by
      intro hz
      unfold checkZoneAndTTL at hz
      by_cases hzo : zone = ""
      · simp [hzo] at hz
      · by_cases ht : ttl = 0
        · simp [hzo, ht] at hz
        · exact ⟨hzo, ht⟩
    by_cases h1 : email ≠ "" ∨ key ≠ ""
    · rw [if_pos h1] at h
      cases hk : keyRegexMatch key with
      | false => simp [hk] at h
      | true =>
        cases hm : emailRegexMatch email with
        | false => simp [hk, hm] at h
        | true =>
          simp only [hk, hm, Bool.not_true, Bool.false_eq_true, if_false] at h
          exact ⟨Or.inl ⟨h1, rfl, rfl⟩, hzt h⟩
    · rw [if_neg h1] at h
      push_neg at h1
      by_cases h2 : usk ≠ ""
      · rw [if_pos h2] at h
        cases hu : userServiceKeyRegexMatch usk with
        | false => simp [hu] at h
        | true =>
          simp only [hu, Bool.not_true, Bool.false_eq_true, if_false] at h
          exact ⟨Or.inr (Or.inl ⟨h1.1, h1.2, h2⟩), hzt h⟩
      · rw [if_neg h2] at h
        exact ⟨Or.inr (Or.inr ⟨h1.1, h1.2, not_ne_iff.mp h2⟩), hzt h⟩

/-- C1: if the remote lookup finds exactly one matching record whose content
already equals the requested IP, Update returns that IP with no error and
issues no mutating vendor call (no creation, no update request). -/
theorem update_upToDate_no_mutating_call
    (env : VendorEnv) (p : Provider) (ip : Addr) (r : DnsRecord)
    (hauth : ∃ c, createCloudflareClient p = .ok c)
    (hlist : env.listResult (listParamsFor p ip) = .ok [r])
    (hcontent : r.content = ip.string) :
    Provider.Update env p ip = (.ok ip, CallLog.empty) := by
  obtain ⟨c, hc⟩ := hauth
  have hg : getRecordID env p ip = .ok (r.id, true) := by
    unfold getRecordID
    rw [hlist]
    simp [hcontent]
  unfold Provider.Update
  rw [hc, hg]
  rfl

/-- C1 witness: a concrete environment holding exactly the requested IP. -/
theorem update_upToDate_no_mutating_call_witness :
    Provider.Update Fixtures.envUpToDate Fixtures.provTok Fixtures.ip4 =
      (.ok Fixtures.ip4, CallLog.empty) :=
  update_upToDate_no_mutating_call Fixtures.envUpToDate Fixtures.provTok Fixtures.ip4
    { id := "rid1", content := "10.0.0.1" } ⟨.apiToken "tok1", rfl⟩ rfl rfl

/-- C2: when the remote lookup finds no record, Update issues exactly one
creation call carrying the requested IP, the record type chosen by the IP
family, the configured TTL and proxied flag, and returns the requested IP
when it succeeds. -/
theorem update_noResult_creates_once
    (env : VendorEnv) (p : Provider) (ip : Addr)
    (hauth : ∃ c, createCloudflareClient p = .ok c)
    (hlist : env.listResult (listParamsFor p ip) = .ok []) :
    (Provider.Update env p ip).2.creates = [createParamsFor p ip] ∧
    (createParamsFor p ip).content = ip.string ∧
    (createParamsFor p ip).ttl = p.ttl ∧
    (createParamsFor p ip).proxied = p.proxied ∧
    (ip.is6 = false → (createParamsFor p ip).recType = .A) ∧
    (ip.is6 = true → (createParamsFor p ip).recType = .AAAA) ∧
    ∀ a, (Provider.Update env p ip).1 = .ok a → a = ip := by
  obtain ⟨c, hc⟩ := hauth
  have hg : getRecordID env p ip = .error .noResult := by
    unfold getRecordID
    rw [hlist]
  have key : (Provider.Update env p ip).2.creates = [createParamsFor p ip] ∧
      ∀ a, (Provider.Update env p ip).1 = .ok a → a = ip := by
    unfold Provider.Update
    rw [hc, hg]
    cases hcr : env.createResult (createParamsFor p ip) with
    | error msg => simp [GoErr.isNoResult]
    | ok rid =>
      unfold runRecordUpdate
      cases hur : env.updateResult (updateParamsFor p ip rid) with
      | error msg => simp [GoErr.isNoResult, hur]
      | ok u =>
        constructor
        · simp [GoErr.isNoResult, hur]
        · intro a ha
          simp [GoErr.isNoResult, hur] at ha
          exact ha.symm
  refine ⟨key.1, rfl, rfl, rfl, ?_, ?_, key.2⟩
  · intro h6
    simp [createParamsFor, recordTypeForIP, h6]
  · intro h6
    simp [createParamsFor, recordTypeForIP, h6]

/-- C2 witness: a concrete empty-zone environment. -/
theorem update_noResult_creates_once_witness :
    (Provider.Update Fixtures.envEmpty Fixtures.provTok Fixtures.ip4).2.creates =
      [createParamsFor Fixtures.provTok Fixtures.ip4] ∧
    (createParamsFor Fixtures.provTok Fixtures.ip4).content = Fixtures.ip4.string ∧
    (createParamsFor Fixtures.provTok Fixtures.ip4).ttl = Fixtures.provTok.ttl ∧
    (createParamsFor Fixtures.provTok Fixtures.ip4).proxied = Fixtures.provTok.proxied ∧
    (Fixtures.ip4.is6 = false →
      (createParamsFor Fixtures.provTok Fixtures.ip4).recType = .A) ∧
    (Fixtures.ip4.is6 = true →
      (createParamsFor Fixtures.provTok Fixtures.ip4).recType = .AAAA) ∧
    ∀ a, (Provider.Update Fixtures.envEmpty Fixtures.provTok Fixtures.ip4).1 = .ok a →
      a = Fixtures.ip4 :=
  update_noResult_creates_once Fixtures.envEmpty Fixtures.provTok Fixtures.ip4
    ⟨.apiToken "tok1", rfl⟩ rfl

/-- C3: when the remote lookup returns more than one matching record, Update
fails with an error whose message mentions the received count and issues no
mutating vendor call; the ambiguity is never resolved by picking a record. -/
theorem update_multiple_results_no_mutating_call
    (env : VendorEnv) (p : Provider) (ip : Addr) (rs : List DnsRecord)
    (hauth : ∃ c, createCloudflareClient p = .ok c)
    (hlist : env.listResult (listParamsFor p ip) = .ok rs)
    (hlen : 1 < rs.length) :
    ∃ e, Provider.Update env p ip = (.error e, CallLog.empty) ∧
      ∃ a b, e.message = a ++ toString rs.length ++ b := by
  obtain ⟨c, hc⟩ := hauth
  cases rs with
  | nil => simp at hlen
  | cons r rest =>
    cases rest with
    | nil => simp at hlen
    | cons r2 rest2 =>
      have hg : getRecordID env p ip = .error (.resultsCount (r :: r2 :: rest2).length) := by
        unfold getRecordID
        rw [hlist]
        simp
      refine ⟨.wrap "getting record id" (.resultsCount (r :: r2 :: rest2).length), ?_, ?_⟩
      · unfold Provider.Update
        rw [hc, hg]
        rfl
      · refine ⟨"getting record id" ++ ": " ++ (errResultsCountReceivedText ++ ": "),
          " instead of 1", ?_⟩
        simp [GoErr.message, String.append_assoc]

/-- C3 witness: a concrete environment reporting two matching records. -/
theorem update_multiple_results_no_mutating_call_witness :
    ∃ e, Provider.Update Fixtures.envTwo Fixtures.provTok Fixtures.ip4 =
        (.error e, CallLog.empty) ∧
      ∃ a b, e.message = a ++ toString
        ([({ id := "r1", content := "1.1.1.1" } : DnsRecord),
          { id := "r2", content := "2.2.2.2" }].length) ++ b :=
  update_multiple_results_no_mutating_call Fixtures.envTwo Fixtures.provTok Fixtures.ip4
    [{ id := "r1", content := "1.1.1.1" }, { id := "r2", content := "2.2.2.2" }]
    ⟨.apiToken "tok1", rfl⟩ rfl (by decide)

/-- C4 counterexample: the configuration with every credential field empty is
accepted by New (the token-only default case of validateSettings checks
nothing), yet no credential mode is satisfiable: client creation fails and
Update fails at runtime for lack of an authentication method. -/
theorem new_accepts_credentialless_config :
    New Fixtures.settingsNoCreds "example.com" "@" "ipv4" "" = .ok Fixtures.provNoAuth ∧
    createCloudflareClient Fixtures.provNoAuth = .error "no authentication method available" ∧
    (Provider.Update Fixtures.envEmpty Fixtures.provNoAuth Fixtures.ip4).1 =
      .error (.wrap "failed to create cloudflare client"
        (.vendor "no authentication method available")) := by
  refine ⟨rfl, rfl, rfl⟩

/-- C4 amended: a configuration accepted by New either has a satisfiable
credential mode (client creation succeeds), or all four credential fields
are empty — that configuration is also accepted, and for it Update fails at
runtime with the no-authentication-method error. -/
theorem new_ok_auth_satisfiable_or_all_empty
    (s : Settings) (domain owner ipVersion ipv6Suffix : String) (p : Provider)
    (hnew : New s domain owner ipVersion ipv6Suffix = .ok p) :
    (∃ c, createCloudflareClient p = .ok c) ∨
    (p.token = "" ∧ p.email = "" ∧ p.key = "" ∧ p.userServiceKey = "" ∧
     createCloudflareClient p = .error "no authentication method available") := by
  unfold New at hnew
  cases hv : validateSettings domain s.email s.key s.userServiceKey s.zoneIdentifier s.ttl with
  | error e => rw [hv] at hnew; exact absurd hnew (by simp)
  | ok u =>
    cases u
    rw [hv] at hnew
    injection hnew with hp
    subst hp
    by_cases ht : s.token = ""
    · rcases (validateSettings_ok_inv hv).1 with ⟨h1, hk, hm⟩ | ⟨he, hkk, hu⟩ | ⟨he, hkk, hu⟩
      · have hkne := keyRegexMatch_ne_empty hk
        have hmne := emailRegexMatch_ne_empty hm
        exact Or.inl ⟨.apiKeyEmail s.key s.email,
          by simp [createCloudflareClient, ht, hkne, hmne]⟩
      · exact Or.inl ⟨.apiServiceKey s.userServiceKey,
          by simp [createCloudflareClient, ht, he, hkk, hu]⟩
      · exact Or.inr ⟨ht, he, hkk, hu,
          by simp [createCloudflareClient, ht, he, hkk, hu]⟩
    · exact Or.inl ⟨.apiToken s.token, by simp [createCloudflareClient, ht]⟩

/-- C4 amended witness: the token-only configuration is accepted and its
client creation succeeds. -/
theorem new_ok_auth_satisfiable_or_all_empty_witness :
    (∃ c, createCloudflareClient Fixtures.provTok = .ok c) ∨
    (Fixtures.provTok.token = "" ∧ Fixtures.provTok.email = "" ∧
     Fixtures.provTok.key = "" ∧ Fixtures.provTok.userServiceKey = "" ∧
     createCloudflareClient Fixtures.provTok =
       .error "no authentication method available") :=
  new_ok_auth_satisfiable_or_all_empty Fixtures.settingsTok "example.com" "@" "ipv4" ""
    Fixtures.provTok rfl

/-- C7: a configuration with an empty zone identifier or a zero TTL is
rejected by New: the failure is at construction, before any Provider exists
that a runtime Update could be called on. -/
theorem new_rejects_missing_zone_or_zero_ttl
    (s : Settings) (domain owner ipVersion ipv6Suffix : String)
    (h : s.zoneIdentifier = "" ∨ s.ttl = 0) :
    ∃ e, New s domain owner ipVersion ipv6Suffix = .error e := by
  cases hv : validateSettings domain s.email s.key s.userServiceKey s.zoneIdentifier s.ttl with
  | error e =>
    exact ⟨"validating provider specific settings: " ++ e, by unfold New; rw [hv]⟩
  | ok u =>
    cases u
    rcases h with hz | ht
    · exact absurd hz (validateSettings_ok_inv hv).2.1
    · exact absurd ht (validateSettings_ok_inv hv).2.2

/-- C7 witness: the empty-zone configuration is rejected. -/
theorem new_rejects_missing_zone_or_zero_ttl_witness :
    Fixtures.settingsNoZone.zoneIdentifier = "" ∧
    ∃ e, New Fixtures.settingsNoZone "example.com" "@" "ipv4" "" = .error e :=
  ⟨rfl, new_rejects_missing_zone_or_zero_ttl Fixtures.settingsNoZone
    "example.com" "@" "ipv4" "" (Or.inl rfl)⟩

/-- C5 counterexample: for a Record whose History has no confirmed current
IP, the projected current_ip is the Go zero-Addr rendering "invalid IP", not
the empty string the claim states. -/
theorem json_currentIP_never_set_not_empty :
    (Record.JSON Fixtures.recFail 0).CurrentIP = "invalid IP" ∧
    (Record.JSON Fixtures.recFail 0).CurrentIP ≠ "" := by
  refine ⟨rfl, by decide⟩

/-- C5 amended: the projected current_ip is the String() rendering of the
History's current IP when one is set, and the netip zero-value rendering
"invalid IP" (not the empty string) when none has ever been set. -/
theorem json_currentIP_cases (r : Record) (now : Int) :
    (r.History.currentIP = none → (r.JSON now).CurrentIP = "invalid IP") ∧
    ∀ a, r.History.currentIP = some a → (r.JSON now).CurrentIP = a.string := by
  constructor
  · intro h
    simp [Record.JSON, History.GetCurrentIP, h, zeroAddr, Addr.string]
  · intro a h
    simp [Record.JSON, History.GetCurrentIP, h]

/-- C5 amended witness: a record with a confirmed current IP projects its
textual form. -/
theorem json_currentIP_cases_witness :
    (Fixtures.recCurrent.History.currentIP = none →
      (Record.JSON Fixtures.recCurrent 0).CurrentIP = "invalid IP") ∧
    ∀ a, Fixtures.recCurrent.History.currentIP = some a →
      (Record.JSON Fixtures.recCurrent 0).CurrentIP = a.string :=
  json_currentIP_cases Fixtures.recCurrent 0

/-- C6 counterexample: a failed Record with an empty message projects
"failure , 0s ago" — no parentheses appear, so the status does not follow
the "<state> (<message>), <age> ago" template in the empty-message case. -/
theorem json_status_empty_message_no_parens :
    (Record.JSON Fixtures.recFail 0).Status = "failure , 0s ago" ∧
    (Record.JSON Fixtures.recFail 0).Status ≠ "failure (), 0s ago" := by
  refine ⟨rfl, by decide⟩

/-- C6 amended: for a Record with a non-empty status, the projected status
is "<state> (<message>), <age> ago" when the effective message is
non-empty; when it is empty the parentheses are omitted and the status is
"<state> , <age> ago". -/
theorem json_status_composed_shape (r : Record) (now : Int) (hs : r.Status ≠ "") :
    (effectiveMessage r now ≠ "" →
      (r.JSON now).Status =
        r.Status ++ " " ++ ("(" ++ effectiveMessage r now ++ ")") ++ ", "
          ++ durationString (roundToSecond (now - r.Time)) ++ " ago") ∧
    (effectiveMessage r now = "" →
      (r.JSON now).Status =
        r.Status ++ " , " ++ durationString (roundToSecond (now - r.Time)) ++ " ago") := by
  constructor
  · intro hm
    simp [Record.JSON, hs, hm]
  · intro hm
    simp only [Record.JSON, hs, hm, if_neg hs, ite_not, ite_true, ite_false]
    rw [String.append_empty, String.append_assoc r.Status " " ", "]
    rfl

/-- C6 amended witness: a failed Record with message "boom". -/
theorem json_status_composed_shape_witness :
    (effectiveMessage Fixtures.recFailMsg 0 ≠ "" →
      (Record.JSON Fixtures.recFailMsg 0).Status =
        Fixtures.recFailMsg.Status ++ " "
          ++ ("(" ++ effectiveMessage Fixtures.recFailMsg 0 ++ ")") ++ ", "
          ++ durationString (roundToSecond (0 - Fixtures.recFailMsg.Time)) ++ " ago") ∧
    (effectiveMessage Fixtures.recFailMsg 0 = "" →
      (Record.JSON Fixtures.recFailMsg 0).Status =
        Fixtures.recFailMsg.Status ++ " , "
          ++ durationString (roundToSecond (0 - Fixtures.recFailMsg.Time)) ++ " ago") :=
  json_status_composed_shape Fixtures.recFailMsg 0 (by decide)

/-- C10: a Record whose status is the empty (unset) value projects the
literal sentinel "N/A" as its status field. -/
theorem json_unset_status_is_na (r : Record) (now : Int) (h : r.Status = "") :
    (r.JSON now).Status = "N/A" := by
  simp [Record.JSON, h]

/-- C10 witness: the never-attempted Record projects "N/A". -/
theorem json_unset_status_is_na_witness :
    (Record.JSON Fixtures.recUnset 0).Status = "N/A" :=
  json_unset_status_is_na Fixtures.recUnset 0 rfl

/-- C8: ValidateProvider accepts exactly the names listed by ListProviders
(ipinfo and ip2location), and on every name it accepts, newProvider builds a
provider without reaching its panic branch. -/
theorem validateProvider_iff_known_and_dispatch_safe (p : String) :
    (Info.ValidateProvider p = .ok () ↔ (p = Info.Ipinfo ∨ p = Info.IP2Location)) ∧
    (Info.ValidateProvider p = .ok () → ∃ impl, Info.newProvider p = .ok impl) := by
  by_cases h1 : p = Info.Ipinfo
  · subst h1
    exact ⟨⟨fun _ => Or.inl rfl, fun _ => rfl⟩, fun _ => ⟨.ipinfo, rfl⟩⟩
  · by_cases h2 : p = Info.IP2Location
    · subst h2
      refine ⟨⟨fun _ => Or.inr rfl, fun _ => ?_⟩, fun _ => ⟨.ip2location, ?_⟩⟩
      · simp [Info.ValidateProvider, Info.ListProviders, Info.validateLoop,
          Info.Ipinfo, Info.IP2Location]
      · simp [Info.newProvider, Info.Ipinfo, Info.IP2Location]
    · have hv : Info.ValidateProvider p =
          .error (Info.errUnknownProvider ++ ": " ++ p) := by
        simp [Info.ValidateProvider, Info.ListProviders, Info.validateLoop, h1, h2]
      refine ⟨⟨fun h => absurd (hv ▸ h) (by simp), fun h => ?_⟩, fun h => absurd (hv ▸ h) (by simp)⟩
      rcases h with h | h
      · exact absurd h h1
      · exact absurd h h2

/-- C8 witness: the name "ipinfo" is accepted and dispatches. -/
theorem validateProvider_iff_known_and_dispatch_safe_witness :
    Info.ValidateProvider Info.Ipinfo = .ok () ∧
    ∃ impl, Info.newProvider Info.Ipinfo = .ok impl :=
  ⟨rfl, (validateProvider_iff_known_and_dispatch_safe Info.Ipinfo).2 rfl⟩

/-- C9: in every orchestrator state reachable under the per-Record exclusion
discipline, at most one vendor update call is in flight for any key at any
instant. -/
theorem at_most_one_inflight_per_key (s : Orchestrator.State)
    (h : Orchestrator.Reachable s) (k : String) :
    s.inFlight.count k ≤ 1 :=
  List.nodup_iff_count_le_one.mp (Orchestrator.reachable_nodup s h) k

/-- C9 witness: the state reached after starting one update for a key. -/
theorem at_most_one_inflight_per_key_witness :
    ({ inFlight := ["example.com+@+ipv4"] } : Orchestrator.State).inFlight.count
      "example.com+@+ipv4" ≤ 1 :=
  at_most_one_inflight_per_key { inFlight := ["example.com+@+ipv4"] }
    (Relation.ReflTransGen.single
      (Orchestrator.Step.startUpdate "example.com+@+ipv4" Orchestrator.init
        (List.not_mem_nil _)))
    "example.com+@+ipv4"

end Theorems

end Ddns
